import Mathlib

/-!
Shallow embedding of `fragment_bot.py`: a Telegram bot that drives a single
Playwright browser session against fragment.com.  The embedding models

  * the three module-level globals `_playwright`, `_context`, `_page`
    (as `BrowserState`, with handles as `Nat` identifiers),
  * every Playwright / Telegram side effect as an `Event` appended to a trace,
  * every fallible external call (Playwright operations) as an outcome
    supplied by an environment record: `none` / `Except.ok` means the awaited
    call returned, `some e` / `Except.error e` means it raised the Python
    exception modelled by `e`.

Exceptions are modelled by `PyExn`.  The distinction between
`asyncio.TimeoutError` and Playwright's own `TimeoutError` matters: the
handler `on_connect` catches exactly `asyncio.TimeoutError` in its inner
`try`, while Playwright's `wait_for_selector` raises
`playwright.async_api.TimeoutError` (a subclass of its `Error`, which
derives from `Exception` and is unrelated to `asyncio.TimeoutError`).

Telegram sends (`msg.answer`, `inline_q.answer`) and log calls are modelled
as non-raising trace events; the claims under study are about the page and
session behaviour, with the Telegram boundary taken as reliable.
-/

/-- A Python exception value.  `asyncioTimeout` is `asyncio.TimeoutError`;
`pwTimeout` is Playwright's `TimeoutError` raised when a bounded wait
expires; `err` is any other `Exception`.  The payload is `str(e)`, the text
Python interpolates for `f"...\x7be\x7d..."` (empty for a bare
`asyncio.TimeoutError()`). -/
inductive PyExn where
  | asyncioTimeout : PyExn
  | pwTimeout : String → PyExn
  | err : String → PyExn
deriving DecidableEq, Repr

/-- The text `str(e)` used when the exception is interpolated into a message. -/
def PyExn.toMessage : PyExn → String
  | .asyncioTimeout => ""
  | .pwTimeout m => m
  | .err m => m

/-- The CSS/xpath selectors appearing in the source, one constructor per
selector string:
  * `connectTonButton`   = button:has-text 'Connect TON'
  * `tonWalletDialog`    = text 'Connect your TON wallet'
  * `dialogSecondButton` = dialog.locator('button').nth(1)
  * `scanText`           = text 'Scan with your mobile wallet'
  * `openLinkAnchor`     = a:has-text 'Open Link'
  * `numbersRow f`       = xpath row whose text contains the fragment `f`
  * `getLoginCodeButton` = button:has-text 'Get Login Code'
  * `loginCodeDiv`       = div.login-code -/
inductive Sel where
  | connectTonButton : Sel
  | tonWalletDialog : Sel
  | dialogSecondButton : Sel
  | scanText : Sel
  | openLinkAnchor : Sel
  | numbersRow : String → Sel
  | getLoginCodeButton : Sel
  | loginCodeDiv : Sel
deriving DecidableEq, Repr

/-- Target condition of a `wait_for_selector` call (default is `visible`;
the handshake wait passes `state="detached"`). -/
inductive WaitState where
  | visible : WaitState
  | detached : WaitState
deriving DecidableEq, Repr

/-- One article of a Telegram inline-query answer
(`InlineQueryResultArticle`): its `id`, `title`, and message content. -/
structure InlineResult where
  id : String
  title : String
  content : String
deriving DecidableEq, Repr

/-- One observable side effect, in order of occurrence.  The first three are
the session-creation steps of `init_browser`; `contextClose` / `pwStop` are
the teardown steps of `shutdown_browser`; `sendMessage` is `msg.answer`;
`answerInline` is `inline_q.answer`. -/
inductive Event where
  | pwStart : Event
  | launchContext : Event
  | newPage : Event
  | goto : String → Event
  | click : Sel → Event
  | waitForSelector : Sel → WaitState → Nat → Event
  | getAttribute : Sel → String → Event
  | readText : Sel → Event
  | contextClose : Event
  | pwStop : Event
  | sendMessage : String → Event
  | logWarning : String → Event
  | logError : String → Event
  | answerInline : List InlineResult → Nat → Event
deriving DecidableEq, Repr

/-- `true` for the events that touch the external page. -/
def Event.isPageInteraction : Event → Bool
  | .goto _ => true
  | .click _ => true
  | .waitForSelector _ _ _ => true
  | .getAttribute _ _ => true
  | .readText _ => true
  | _ => false

/-- `true` for the session-creation steps of `init_browser`. -/
def Event.isSessionCreation : Event → Bool
  | .pwStart => true
  | .launchContext => true
  | .newPage => true
  | _ => false

/-- `true` for the session-teardown steps of `shutdown_browser`. -/
def Event.isTeardown : Event → Bool
  | .contextClose => true
  | .pwStop => true
  | _ => false

/-- `true` for messages sent to the chat via `msg.answer`. -/
def Event.isSendMessage : Event → Bool
  | .sendMessage _ => true
  | _ => false

/-- `true` for inline-query answers sent via `inline_q.answer`. -/
def Event.isAnswer : Event → Bool
  | .answerInline _ _ => true
  | _ => false

/-- The module-level globals `_playwright`, `_context`, `_page`
(`None` = `Option.none`; live Python objects are identified by `Nat`
handles drawn from the `nextId` counter, so that handle identity is
observable).  Python object truthiness: a live Playwright / context / page
object is always truthy, so `if _page:` is `page.isSome`. -/
structure BrowserState where
  playwright : Option Nat
  context : Option Nat
  page : Option Nat
  nextId : Nat
deriving DecidableEq, Repr

/-- Result of running one handler: the returned value (`Except.error e`
means the Python coroutine raised `e` to its caller uncaught), the final
global state, and the trace of side effects. -/
structure StepResult (α : Type) where
  res : Except PyExn α
  st : BrowserState
  tr : List Event
deriving Repr

/-- Outcomes of the external calls made by `init_browser`:
`async_playwright().start()`, `chromium.launch_persistent_context(...)`,
`context.new_page()`, and `page.goto("https://fragment.com", ...)`.
`none` = the awaited call succeeded. -/
structure InitEnv where
  startOk : Option PyExn
  launchOk : Option PyExn
  newPageOk : Option PyExn
  gotoOk : Option PyExn
deriving Repr

/-- The entry-point URL `init_browser` navigates to. -/
def fragmentUrl : String := "https://fragment.com"

/-- The listing URL `on_inline_query` navigates to. -/
def numbersUrl : String := "https://fragment.com/my/numbers"

/-- Embedding of `init_browser` (fragment_bot.py lines 32-72).  If `_page`
is set it is returned at once with no side effect; otherwise the session is
created step by step, each global being assigned only after its awaited
call returns (so a failure part-way leaves the earlier assignments in
place, exactly as in the source).  The iPhone-13 device-descriptor mapping
only computes keyword arguments for `launch_persistent_context` and is
absorbed into the `launchOk` outcome. -/
def init_browser (env : InitEnv) (s : BrowserState) : StepResult Nat :=
  match s.page with
  | some p => ⟨.ok p, s, []⟩
  | none =>
    match env.startOk with
    | some e => ⟨.error e, s, [.pwStart]⟩
    | none =>
      let pwId := s.nextId
      let s1 : BrowserState := { s with playwright := some pwId, nextId := s.nextId + 1 }
      match env.launchOk with
      | some e => ⟨.error e, s1, [.pwStart, .launchContext]⟩
      | none =>
        let ctxId := s1.nextId
        let s2 : BrowserState := { s1 with context := some ctxId, nextId := s1.nextId + 1 }
        match env.newPageOk with
        | some e => ⟨.error e, s2, [.pwStart, .launchContext, .newPage]⟩
        | none =>
          let pgId := s2.nextId
          let s3 : BrowserState := { s2 with page := some pgId, nextId := s2.nextId + 1 }
          match env.gotoOk with
          | some e => ⟨.error e, s3, [.pwStart, .launchContext, .newPage, .goto fragmentUrl]⟩
          | none => ⟨.ok pgId, s3, [.pwStart, .launchContext, .newPage, .goto fragmentUrl]⟩

/-- Outcomes of the external calls made by `shutdown_browser`:
`_context.close()` and `_playwright.stop()`. -/
structure ShutdownEnv where
  closeOk : Option PyExn
  stopOk : Option PyExn
deriving Repr

/-- Embedding of `shutdown_browser` (fragment_bot.py lines 74-84).  The
source has no `try`/`except`: a raising `close()` or `stop()` propagates
out and the three `= None` assignments at the end are then never reached,
leaving the globals untouched. -/
def shutdown_browser (env : ShutdownEnv) (s : BrowserState) : StepResult Unit :=
  if s.context.isSome then
    match env.closeOk with
    | some e => ⟨.error e, s, [.contextClose]⟩
    | none =>
      if s.playwright.isSome then
        match env.stopOk with
        | some e => ⟨.error e, s, [.contextClose, .pwStop]⟩
        | none =>
          ⟨.ok (), { s with page := none, context := none, playwright := none },
            [.contextClose, .pwStop]⟩
      else
        ⟨.ok (), { s with page := none, context := none, playwright := none },
          [.contextClose]⟩
  else
    if s.playwright.isSome then
      match env.stopOk with
      | some e => ⟨.error e, s, [.pwStop]⟩
      | none =>
        ⟨.ok (), { s with page := none, context := none, playwright := none },
          [.pwStop]⟩
    else
      ⟨.ok (), { s with page := none, context := none, playwright := none }, []⟩

/-- Python `x or default` on an optional string: `None` and the empty
string are falsy, any other string is returned unchanged.  Used for
`open_link or "❌ No link found"` in `on_connect`. -/
def pyOrStr (o : Option String) (dflt : String) : String :=
  match o with
  | some v => if v = "" then dflt else v
  | none => dflt

/-- Python `x or ""` on the optional result of `el.text_content()`. -/
def pyOrEmpty (o : Option String) : String :=
  match o with
  | some v => v
  | none => ""

/-- The exact set of code points for which CPython's `str.isspace()` is
true (and which `str.strip()` with no argument therefore removes): the
ASCII whitespace characters U+0009-U+000D and U+0020, the file/group/
record/unit separators U+001C-U+001F, next-line U+0085, and the Unicode
space characters U+00A0, U+1680, U+2000-U+200A, U+2028, U+2029, U+202F,
U+205F, U+3000.  Enumerated as closed code-point ranges, generated from
CPython 3.11's own classification. -/
def pySpaceRanges : List (Nat × Nat) :=
  [(0x9, 0xD), (0x1C, 0x20), (0x85, 0x85), (0xA0, 0xA0), (0x1680, 0x1680),
   (0x2000, 0x200A), (0x2028, 0x2029), (0x202F, 0x202F), (0x205F, 0x205F),
   (0x3000, 0x3000)]

/-- `true` on the characters Python `str.strip()` removes: membership in
`pySpaceRanges`. -/
def isPySpace (c : Char) : Bool :=
  pySpaceRanges.any (fun r => decide (r.1 ≤ c.toNat) && decide (c.toNat ≤ r.2))

/-- Python `str.strip()`: drop leading and trailing whitespace. -/
def pyStrip (s : String) : String :=
  String.mk (((s.toList.dropWhile isPySpace).reverse.dropWhile isPySpace).reverse)

/-- The exact set of code points for which CPython's `str.isdigit()` is
true for the single character (Unicode property Numeric_Type = Decimal or
Digit), as closed code-point ranges generated from CPython 3.11's own
classification: the ASCII digits 0x30-0x39 first, then superscripts
U+00B2/U+00B3/U+00B9 and U+2070-U+2089, the decimal-digit blocks of the
other scripts (Arabic-Indic U+0660-U+0669, extended Arabic, NKo,
Devanagari U+0966-U+096F and the further Indic scripts, Thai, Lao,
Tibetan, Myanmar, Ethiopic, Khmer, Mongolian, and so on, including the
astral-plane blocks such as Osmanya and the mathematical monospace digits
U+1D7CE-U+1D7FF), the circled/parenthesized/full-stop digit sequences
U+2460-U+2792 (in parts) and U+24EA/U+24F5-U+24FF, fullwidth digits
U+FF10-U+FF19, and the digit-with-comma signs U+1F100-U+1F10A. -/
def pyDigitRanges : List (Nat × Nat) :=
  [(0x30, 0x39), (0xB2, 0xB3), (0xB9, 0xB9), (0x660, 0x669), (0x6F0, 0x6F9),
   (0x7C0, 0x7C9), (0x966, 0x96F), (0x9E6, 0x9EF), (0xA66, 0xA6F),
   (0xAE6, 0xAEF), (0xB66, 0xB6F), (0xBE6, 0xBEF), (0xC66, 0xC6F),
   (0xCE6, 0xCEF), (0xD66, 0xD6F), (0xDE6, 0xDEF), (0xE50, 0xE59),
   (0xED0, 0xED9), (0xF20, 0xF29), (0x1040, 0x1049), (0x1090, 0x1099),
   (0x1369, 0x1371), (0x17E0, 0x17E9), (0x1810, 0x1819), (0x1946, 0x194F),
   (0x19D0, 0x19DA), (0x1A80, 0x1A89), (0x1A90, 0x1A99), (0x1B50, 0x1B59),
   (0x1BB0, 0x1BB9), (0x1C40, 0x1C49), (0x1C50, 0x1C59), (0x2070, 0x2070),
   (0x2074, 0x2079), (0x2080, 0x2089), (0x2460, 0x2468), (0x2474, 0x247C),
   (0x2488, 0x2490), (0x24EA, 0x24EA), (0x24F5, 0x24FD), (0x24FF, 0x24FF),
   (0x2776, 0x277E), (0x2780, 0x2788), (0x278A, 0x2792), (0xA620, 0xA629),
   (0xA8D0, 0xA8D9), (0xA900, 0xA909), (0xA9D0, 0xA9D9), (0xA9F0, 0xA9F9),
   (0xAA50, 0xAA59), (0xABF0, 0xABF9), (0xFF10, 0xFF19), (0x104A0, 0x104A9),
   (0x10A40, 0x10A43), (0x10D30, 0x10D39), (0x10E60, 0x10E68),
   (0x11052, 0x1105A), (0x11066, 0x1106F), (0x110F0, 0x110F9),
   (0x11136, 0x1113F), (0x111D0, 0x111D9), (0x112F0, 0x112F9),
   (0x11450, 0x11459), (0x114D0, 0x114D9), (0x11650, 0x11659),
   (0x116C0, 0x116C9), (0x11730, 0x11739), (0x118E0, 0x118E9),
   (0x11950, 0x11959), (0x11C50, 0x11C59), (0x11D50, 0x11D59),
   (0x11DA0, 0x11DA9), (0x16A60, 0x16A69), (0x16AC0, 0x16AC9),
   (0x16B50, 0x16B59), (0x1D7CE, 0x1D7FF), (0x1E140, 0x1E149),
   (0x1E2F0, 0x1E2F9), (0x1E950, 0x1E959), (0x1F100, 0x1F10A),
   (0x1FBF0, 0x1FBF9)]

/-- `true` on the single characters Python `str.isdigit()` accepts:
membership in `pyDigitRanges`.  In particular every ASCII digit, but also
for example the Arabic-Indic digits U+0660-U+0669. -/
def pyIsDigitChar (c : Char) : Bool :=
  pyDigitRanges.any (fun r => decide (r.1 ≤ c.toNat) && decide (c.toNat ≤ r.2))

/-- Python `str.isdigit()`: at least one character and every character a
digit in Python's Unicode sense (`pyIsDigitChar`) — a strictly larger
character class than ASCII `[0-9]`. -/
def pyIsDigit (s : String) : Bool :=
  decide (0 < s.length) && s.toList.all pyIsDigitChar

/-- The validation test of `on_inline_query`, applied to the stripped
query: `q.isdigit() and 3 <= len(q) <= 7`. -/
def validFragment (q : String) : Bool :=
  pyIsDigit q && decide (3 ≤ q.length) && decide (q.length ≤ 7)

/-- The regex `^[0-9]\x7b3,7\x7d$` of the specification: the whole string is
3 to 7 ASCII digits.  Stated from the spec wording, for comparison with
the code-side `validFragment`. -/
def matchesDigits3to7 (s : String) : Bool :=
  decide (3 ≤ s.length) && decide (s.length ≤ 7) && s.toList.all Char.isDigit

/-- Outcomes of the external calls made inside `on_connect`'s `try` block,
in source order: the click on the Connect-TON button, the wait for the
wallet dialog, the click on the dialog's second button, the wait for the
scan prompt, the `get_attribute("href")` read (which can also return
`None`), and the 60-second wait for the Connect-TON button to detach. -/
structure ConnectEnv where
  init : InitEnv
  clickConnect : Option PyExn
  waitDialog : Option PyExn
  clickGrid : Option PyExn
  waitScan : Option PyExn
  getOpenLink : Except PyExn (Option String)
  waitDetach : Option PyExn
deriving Repr

/-- The link-delivery message of `on_connect` step 6. -/
def connectLinkMsg (link : String) : String :=
  "🔗 Copy this link into Tonkeeper to connect:\n\n`" ++ link ++ "`"

/-- The message `on_connect`'s outer `except Exception` handler sends. -/
def connectErrMsg (e : PyExn) : String :=
  "⚠️ Error during connect:\n```\n" ++ e.toMessage ++ "\n```"

/-- The `logging.error` text of `on_connect`'s outer handler. -/
def connectFailLog (e : PyExn) : String :=
  "/connect failed: " ++ e.toMessage

/-- The `logging.warning` text of `on_connect`'s inner
`except asyncio.TimeoutError` handler. -/
def handshakeWarning : String := "Handshake timeout — maybe already connected."

/-- The body of `on_connect`'s outer `try` block (fragment_bot.py lines
90-125): steps 1-7 in order, each recording its event and stopping with the
raised exception if the call fails.  The inner `try` around the handshake
wait catches exactly `asyncio.TimeoutError` (and only logs a warning); the
success path sends the Connected confirmation; any other exception from
the wait escapes this body to the outer handler. -/
def connect_try (env : ConnectEnv) : Except PyExn Unit × List Event :=
  let t1 := [Event.click Sel.connectTonButton]
  match env.clickConnect with
  | some e => (.error e, t1)
  | none =>
    let t2 := t1 ++ [Event.waitForSelector Sel.tonWalletDialog WaitState.visible 10000]
    match env.waitDialog with
    | some e => (.error e, t2)
    | none =>
      let t3 := t2 ++ [Event.click Sel.dialogSecondButton]
      match env.clickGrid with
      | some e => (.error e, t3)
      | none =>
        let t4 := t3 ++ [Event.waitForSelector Sel.scanText WaitState.visible 10000]
        match env.waitScan with
        | some e => (.error e, t4)
        | none =>
          let t5 := t4 ++ [Event.getAttribute Sel.openLinkAnchor ("href")]
          match env.getOpenLink with
          | .error e => (.error e, t5)
          | .ok openLink =>
            let link := pyOrStr openLink ("❌ No link found")
            let t6 := t5 ++ [Event.sendMessage (connectLinkMsg link)]
            let t7 := t6 ++ [Event.waitForSelector Sel.connectTonButton WaitState.detached 60000]
            match env.waitDetach with
            | none => (.ok (), t7 ++ [Event.sendMessage ("✅ Connected successfully!")])
            | some PyExn.asyncioTimeout => (.ok (), t7 ++ [Event.logWarning handshakeWarning])
            | some e => (.error e, t7)

/-- Embedding of `on_connect` (fragment_bot.py lines 87-128).  Note that
`init_browser()` is awaited before the `try`: a failure there propagates
out of the handler uncaught.  Everything raised inside the `try` is caught
by `except Exception` and turned into a logged error plus a chat message. -/
def on_connect (env : ConnectEnv) (s : BrowserState) : StepResult Unit :=
  let r := init_browser env.init s
  match r.res with
  | .error e => ⟨.error e, r.st, r.tr⟩
  | .ok _page =>
    match connect_try env with
    | (.ok _, tr) => ⟨.ok (), r.st, r.tr ++ tr⟩
    | (.error e, tr) =>
      ⟨.ok (), r.st,
        r.tr ++ tr ++ [.logError (connectFailLog e), .sendMessage (connectErrMsg e)]⟩

/-- Outcomes of the external calls made inside `on_inline_query`'s `try`
block, in source order: `page.goto(".../my/numbers")`, the 7-second wait
for the row containing the fragment, the click on the row's Get-Login-Code
button, the 10-second wait for `div.login-code`, and `el.text_content()`. -/
structure InlineEnv where
  init : InitEnv
  gotoNumbers : Option PyExn
  waitRow : Option PyExn
  clickGetCode : Option PyExn
  waitCodeEl : Option PyExn
  textContent : Except PyExn (Option String)
deriving Repr

/-- The single `InlineQueryResultArticle` `on_inline_query` answers with:
`id=suffix`, `title=f"\x7bfull\x7d → \x7bcode\x7d"`,
`content=f"Login code for \x7bfull\x7d: \x7bcode\x7d"` with
`full = "+888" + suffix`. -/
def mkArticle (suffix code : String) : InlineResult :=
  let full := "+888" ++ suffix
  ⟨suffix, full ++ " → " ++ code, "Login code for " ++ full ++ ": " ++ code⟩

/-- The body of `on_inline_query`'s `try` block (fragment_bot.py lines
156-166) together with its `except Exception` handler: returns the final
value of the local `code` and the page events performed.  On success the
read text is `or`-defaulted to `""`, stripped, and `or`-defaulted to
`"❌ No code"`; on any exception `code` becomes `f"⚠️ \x7be\x7d"`.
(The initial `code = "❌ Error"` of line 153 is dead: both the success and
the exception path overwrite it.) -/
def inline_try (env : InlineEnv) (suffix : String) : String × List Event :=
  let t1 := [Event.goto numbersUrl]
  match env.gotoNumbers with
  | some e => ("⚠️ " ++ e.toMessage, t1)
  | none =>
    let t2 := t1 ++ [Event.waitForSelector (Sel.numbersRow suffix) WaitState.visible 7000]
    match env.waitRow with
    | some e => ("⚠️ " ++ e.toMessage, t2)
    | none =>
      let t3 := t2 ++ [Event.click Sel.getLoginCodeButton]
      match env.clickGetCode with
      | some e => ("⚠️ " ++ e.toMessage, t3)
      | none =>
        let t4 := t3 ++ [Event.waitForSelector Sel.loginCodeDiv WaitState.visible 10000]
        match env.waitCodeEl with
        | some e => ("⚠️ " ++ e.toMessage, t4)
        | none =>
          let t5 := t4 ++ [Event.readText Sel.loginCodeDiv]
          match env.textContent with
          | .error e => ("⚠️ " ++ e.toMessage, t5)
          | .ok t =>
            let trimmed := pyStrip (pyOrEmpty t)
            (if trimmed = "" then "❌ No code" else trimmed, t5)

/-- Embedding of `on_inline_query` (fragment_bot.py lines 146-173).  The
raw query is stripped first; if the stripped form fails the digit/length
test the handler answers an empty result list at once (cache_time 1) with
no page use.  Otherwise `init_browser()` is awaited before the `try` (a
failure there propagates uncaught, with no answer sent), the lookup body
runs, and the handler answers a single article (cache_time 5). -/
def on_inline_query (env : InlineEnv) (query : String) (s : BrowserState) : StepResult Unit :=
  let q := pyStrip query
  if validFragment q then
    let r := init_browser env.init s
    match r.res with
    | .error e => ⟨.error e, r.st, r.tr⟩
    | .ok _page =>
      let (code, tr2) := inline_try env q
      ⟨.ok (), r.st, r.tr ++ tr2 ++ [.answerInline [mkArticle q code] 5]⟩
  else
    ⟨.ok (), s, [.answerInline [] 1]⟩

/-! ### Shared fixtures and helper lemmas -/

/-- An `init_browser` environment in which every creation step succeeds. -/
def envInitOk : InitEnv := ⟨none, none, none, none⟩

/-- The uninitialized module state: all three globals are `None`. -/
def freshState : BrowserState := ⟨none, none, none, 0⟩

/-- A state with a live session (handles 0, 1, 2 already allocated). -/
def liveState : BrowserState := ⟨some 0, some 1, some 2, 3⟩

/-- An inline-query environment in which every lookup step succeeds and the
code element renders the text of the specification example. -/
def envInlineAllOk : InlineEnv :=
  ⟨envInitOk, none, none, none, none, .ok (some ("  482193  "))⟩

/-- If `init_browser` returns a page handle, that handle is stored in the
`_page` global of the resulting state. -/
theorem init_browser_ok_page (env : InitEnv) (s : BrowserState) (p : Nat)
    (h : (init_browser env s).res = Except.ok p) :
    (init_browser env s).st.page = some p := by
  obtain ⟨pw, ctx, pg, n⟩ := s
  obtain ⟨o1, o2, o3, o4⟩ := env
  rcases pg with _ | q <;> rcases o1 with _ | e1 <;> rcases o2 with _ | e2 <;>
    rcases o3 with _ | e3 <;> rcases o4 with _ | e4 <;>
    simp_all [init_browser]

/-- `init_browser` on a state whose `_page` is set returns it unchanged with
no side effects. -/
theorem init_browser_on_live (env : InitEnv) (s : BrowserState) (p : Nat)
    (h : s.page = some p) :
    init_browser env s = ⟨Except.ok p, s, []⟩ := by
  unfold init_browser
  rw [h]

/-- The lookup body never answers the inline query itself and never tears
the session down: its only events are page interactions. -/
theorem inline_try_events (env : InlineEnv) (q : String) :
    (inline_try env q).2.filter Event.isAnswer = [] ∧
    (inline_try env q).2.all (fun ev => !ev.isTeardown) = true := by
  obtain ⟨i, o1, o2, o3, o4, o5⟩ := env
  rcases o1 with _ | e1 <;> rcases o2 with _ | e2 <;> rcases o3 with _ | e3 <;>
    rcases o4 with _ | e4 <;> rcases o5 with e5 | t5 <;>
    simp_all [inline_try, Event.isAnswer, Event.isTeardown]

/-- One of the five page-interaction steps of the lookup body raises `e`
(each disjunct says the earlier steps succeeded). -/
def InlineFailsWith (env : InlineEnv) (e : PyExn) : Prop :=
  env.gotoNumbers = some e ∨
  (env.gotoNumbers = none ∧ env.waitRow = some e) ∨
  (env.gotoNumbers = none ∧ env.waitRow = none ∧ env.clickGetCode = some e) ∨
  (env.gotoNumbers = none ∧ env.waitRow = none ∧ env.clickGetCode = none ∧
    env.waitCodeEl = some e) ∨
  (env.gotoNumbers = none ∧ env.waitRow = none ∧ env.clickGetCode = none ∧
    env.waitCodeEl = none ∧ env.textContent = Except.error e)

/-- When a lookup step raises `e`, the body's `except Exception` handler
sets `code` to `f"⚠️ \x7be\x7d"`. -/
theorem inline_try_fails (env : InlineEnv) (q : String) (e : PyExn)
    (h : InlineFailsWith env e) :
    (inline_try env q).1 = "⚠️ " ++ e.toMessage := by
  obtain ⟨i, o1, o2, o3, o4, o5⟩ := env
  simp only [InlineFailsWith] at h
  rcases h with h | ⟨h1, h⟩ | ⟨h1, h2, h⟩ | ⟨h1, h2, h3, h⟩ | ⟨h1, h2, h3, h4, h⟩ <;>
    simp_all [inline_try]

/-! ### Claim C1 -/

/-- Claim C1 as frozen is false, on two independent counts.  The query
" 123 " (a valid fragment surrounded by spaces) does not match
`^[0-9]\x7b3,7\x7d$`, yet the handler strips it first, treats it as valid,
performs page interactions, creates a browser session, and answers with
one (non-empty) result.  And the query "١٢٣" (three Arabic-Indic digits
U+0661-U+0663) does not match the regex either, yet Python `str.isdigit()`
accepts it, so the handler likewise interacts with the page and answers
one article. -/
theorem c1_counterexample :
    matchesDigits3to7 " 123 " = false ∧
    (on_inline_query envInlineAllOk " 123 " freshState).tr.any Event.isPageInteraction = true ∧
    (on_inline_query envInlineAllOk " 123 " freshState).tr.any Event.isSessionCreation = true ∧
    (on_inline_query envInlineAllOk " 123 " freshState).tr.filter Event.isAnswer
      = [Event.answerInline [mkArticle ("123") ("482193")] 5] ∧
    matchesDigits3to7 "١٢٣" = false ∧
    validFragment (pyStrip "١٢٣") = true ∧
    (on_inline_query envInlineAllOk "١٢٣" freshState).tr.any Event.isPageInteraction = true ∧
    (on_inline_query envInlineAllOk "١٢٣" freshState).tr.filter Event.isAnswer
      = [Event.answerInline [mkArticle ("١٢٣") ("482193")] 5] := by
  refine ⟨by decide, by decide, by decide, by decide, by decide, by decide,
    by decide, by decide⟩

/-- Claim C1, amended: for every inline-query string whose
Python-stripped form fails the code's validation test
`q.isdigit() and 3 <= len(q) <= 7` — where `str.strip` removes Unicode
whitespace and `str.isdigit` accepts a strict superset of `[0-9]`,
including non-ASCII decimal digits — the handler answers with an empty
result list immediately, performing no page interaction and creating no
browser session (the state is unchanged and the only event is the empty
answer). -/
theorem c1_invalid_stripped_query_no_interaction (env : InlineEnv)
    (s : BrowserState) (query : String)
    (h : validFragment (pyStrip query) = false) :
    (on_inline_query env query s).res = Except.ok () ∧
    (on_inline_query env query s).st = s ∧
    (on_inline_query env query s).tr = [Event.answerInline [] 1] := by
  unfold on_inline_query
  simp [h]

/-- Witness for C1's amended theorem at the concrete query "12abc". -/
theorem c1_witness :
    (on_inline_query envInlineAllOk "12abc" freshState).res = Except.ok () ∧
    (on_inline_query envInlineAllOk "12abc" freshState).st = freshState ∧
    (on_inline_query envInlineAllOk "12abc" freshState).tr = [Event.answerInline [] 1] :=
  c1_invalid_stripped_query_no_interaction envInlineAllOk freshState "12abc" (by decide)

/-! ### Claim C2 -/

/-- A connect run on a live session where every step succeeds, the link is
extracted, and the 60-second detach wait expires with Playwright raising
its own `TimeoutError` — which is what `page.wait_for_selector` actually
raises on timeout (it never raises `asyncio.TimeoutError`). -/
def envConnectPwTimeout : ConnectEnv :=
  ⟨envInitOk, none, none, none, none, .ok (some ("tc://example-link")),
    some (PyExn.pwTimeout ("Timeout 60000ms exceeded."))⟩

/-- The same run except that the detach wait raises `asyncio.TimeoutError`,
the type the inner `except` clause names — the situation the code was
written for but which Playwright never produces. -/
def envConnectAsyncioTimeout : ConnectEnv :=
  ⟨envInitOk, none, none, none, none, .ok (some ("tc://example-link")),
    some PyExn.asyncioTimeout⟩

/-- Claim C2 records the intent, but the code has a slip: the inner
`except asyncio.TimeoutError` never matches the `TimeoutError` Playwright
raises when the 60-second handshake wait expires, so the timeout falls
through to the outer `except Exception` and IS surfaced to the caller as an
error message (first three conjuncts).  Had the wait raised
`asyncio.TimeoutError`, the code would behave exactly as the claim says:
warning logged, no error sent, the link being the only message (last two
conjuncts). -/
theorem c2_handshake_timeout_surfaced_as_error :
    (on_connect envConnectPwTimeout liveState).res = Except.ok () ∧
    Event.sendMessage (connectErrMsg (PyExn.pwTimeout ("Timeout 60000ms exceeded.")))
      ∈ (on_connect envConnectPwTimeout liveState).tr ∧
    Event.logWarning handshakeWarning ∉ (on_connect envConnectPwTimeout liveState).tr ∧
    Event.logWarning handshakeWarning ∈ (on_connect envConnectAsyncioTimeout liveState).tr ∧
    (on_connect envConnectAsyncioTimeout liveState).tr.filter Event.isSendMessage
      = [Event.sendMessage (connectLinkMsg ("tc://example-link"))] := by
  refine ⟨rfl, by decide, by decide, by decide, by decide⟩

/-! ### Claim C3 -/

/-- A teardown environment in which `_context.close()` raises. -/
def envCloseFails : ShutdownEnv := ⟨some (PyExn.err ("close failed")), none⟩

/-- Claim C3 as frozen is false: `shutdown_browser` has no `try`/`except`,
so when `_context.close()` raises, the exception propagates to the caller
and the `= None` assignments are never reached — the page, context and
engine handles all remain set. -/
theorem c3_counterexample :
    (shutdown_browser envCloseFails liveState).res = Except.error (PyExn.err ("close failed")) ∧
    (shutdown_browser envCloseFails liveState).st = liveState ∧
    (shutdown_browser envCloseFails liveState).st.page = some 2 := by
  refine ⟨rfl, by decide, by decide⟩

/-- Claim C3, amended: `shutdown_browser` succeeds and clears all three
session handles whenever the individual close calls succeed (in particular
always when nothing is initialized); a raising close call instead
propagates its exception and leaves the handles uncleared. -/
theorem c3_reset_clears_when_closes_succeed (s : BrowserState) (env : ShutdownEnv)
    (h1 : env.closeOk = none) (h2 : env.stopOk = none) :
    (shutdown_browser env s).res = Except.ok () ∧
    (shutdown_browser env s).st.page = none ∧
    (shutdown_browser env s).st.context = none ∧
    (shutdown_browser env s).st.playwright = none := by
  unfold shutdown_browser
  by_cases hc : s.context.isSome <;> by_cases hp : s.playwright.isSome <;>
    simp [hc, hp, h1, h2]

/-- Witness for C3's amended theorem on a live session with succeeding
close calls. -/
theorem c3_witness :
    (shutdown_browser ⟨none, none⟩ liveState).res = Except.ok () ∧
    (shutdown_browser ⟨none, none⟩ liveState).st.page = none ∧
    (shutdown_browser ⟨none, none⟩ liveState).st.context = none ∧
    (shutdown_browser ⟨none, none⟩ liveState).st.playwright = none :=
  c3_reset_clears_when_closes_succeed liveState ⟨none, none⟩ rfl rfl

/-! ### Claim C4 -/

/-- Claim C4, confirmed: on a live session with a valid fragment, when the
lookup steps succeed and the code element renders text `t`, the single
answered article carries `code = strip(t)` when that is non-empty and the
marker `"❌ No code"` when stripping leaves the empty string; the code
field is never the empty string, and the article embeds the full
identifier `"+888" + fragment` (by definition of `mkArticle`). -/
theorem c4_code_normalization (env : InlineEnv) (s : BrowserState) (p : Nat)
    (query t : String)
    (hpg : s.page = some p)
    (hq : validFragment (pyStrip query) = true)
    (h1 : env.gotoNumbers = none) (h2 : env.waitRow = none)
    (h3 : env.clickGetCode = none) (h4 : env.waitCodeEl = none)
    (h5 : env.textContent = Except.ok (some t)) :
    (on_inline_query env query s).res = Except.ok () ∧
    (on_inline_query env query s).st = s ∧
    (on_inline_query env query s).tr.filter Event.isAnswer
      = [Event.answerInline
          [mkArticle (pyStrip query) (if pyStrip t = "" then "❌ No code" else pyStrip t)] 5] ∧
    (if pyStrip t = "" then "❌ No code" else pyStrip t) ≠ "" := by
  have hinit := init_browser_on_live env.init s p hpg
  unfold on_inline_query
  rw [hinit]
  simp only [hq, if_true]
  refine ⟨trivial, trivial, ?_, ?_⟩
  · simp [inline_try, h1, h2, h3, h4, h5, pyOrEmpty, Event.isAnswer, List.filter_append]
  · by_cases ht : pyStrip t = "" <;> simp [ht]

/-- Witness for C4 at the specification's example: fragment "0495169",
rendered code "  482193  " (which strips to "482193"). -/
theorem c4_witness :
    (on_inline_query envInlineAllOk "0495169" liveState).res = Except.ok () ∧
    (on_inline_query envInlineAllOk "0495169" liveState).st = liveState ∧
    (on_inline_query envInlineAllOk "0495169" liveState).tr.filter Event.isAnswer
      = [Event.answerInline
          [mkArticle (pyStrip "0495169")
            (if pyStrip "  482193  " = "" then "❌ No code" else pyStrip "  482193  ")] 5] ∧
    (if pyStrip "  482193  " = "" then "❌ No code" else pyStrip "  482193  ") ≠ "" :=
  c4_code_normalization envInlineAllOk liveState 2 "0495169" "  482193  "
    rfl (by decide) rfl rfl rfl rfl rfl

/-! ### Claim C5 -/

/-- Claim C5, confirmed: if a first `init_browser` call returns page handle
`p`, a second call with no intervening `shutdown_browser` returns the
identical handle, leaves the state untouched, and performs no side effect
at all (in particular no session creation). -/
theorem c5_acquire_idempotent (e1 e2 : InitEnv) (s : BrowserState) (p : Nat)
    (h : (init_browser e1 s).res = Except.ok p) :
    (init_browser e2 (init_browser e1 s).st).res = Except.ok p ∧
    (init_browser e2 (init_browser e1 s).st).st = (init_browser e1 s).st ∧
    (init_browser e2 (init_browser e1 s).st).tr = [] := by
  have hpg := init_browser_ok_page e1 s p h
  rw [init_browser_on_live e2 (init_browser e1 s).st p hpg]
  simp

/-- Witness for C5: from the uninitialized state a first successful call
returns handle 2, and the second call returns the same handle silently. -/
theorem c5_witness :
    (init_browser envInitOk (init_browser envInitOk freshState).st).res = Except.ok 2 ∧
    (init_browser envInitOk (init_browser envInitOk freshState).st).st
      = (init_browser envInitOk freshState).st ∧
    (init_browser envInitOk (init_browser envInitOk freshState).st).tr = [] :=
  c5_acquire_idempotent envInitOk envInitOk freshState 2 rfl

/-! ### Claim C6 -/

/-- A connect run on a live session in which every step succeeds but the
Open-Link anchor has no href (`get_attribute` returns `None`) and the
handshake wait then succeeds. -/
def envConnectNoLink : ConnectEnv :=
  ⟨envInitOk, none, none, none, none, .ok none, none⟩

/-- Claim C6 as frozen is false: when the deep-link value is absent the
workflow does not terminate in a distinct `LinkExtractionFailed` failure
outcome — it substitutes the marker into the ordinary link-delivery
message, carries on to the handshake wait, and here even reports a
successful connection. -/
theorem c6_counterexample :
    (on_connect envConnectNoLink liveState).res = Except.ok () ∧
    (on_connect envConnectNoLink liveState).tr.filter Event.isSendMessage
      = [Event.sendMessage (connectLinkMsg ("❌ No link found")),
         Event.sendMessage ("✅ Connected successfully!")] := by
  refine ⟨rfl, by decide⟩

/-- Claim C6, amended: when the extracted deep-link value is empty or
absent, the marker text "❌ No link found" is substituted for the link
inside the ordinary link-delivery message (the first message sent), and
the workflow continues to the 60-second handshake-confirmation wait rather
than terminating in a distinct failure state; the handler still returns
normally. -/
theorem c6_missing_link_marker_and_continue (env : ConnectEnv) (s : BrowserState)
    (p : Nat) (v : Option String)
    (hpg : s.page = some p)
    (h1 : env.clickConnect = none) (h2 : env.waitDialog = none)
    (h3 : env.clickGrid = none) (h4 : env.waitScan = none)
    (h5 : env.getOpenLink = Except.ok v)
    (hv : v = none ∨ v = some "") :
    ((on_connect env s).tr.filter Event.isSendMessage).head?
      = some (Event.sendMessage (connectLinkMsg ("❌ No link found"))) ∧
    Event.waitForSelector Sel.connectTonButton WaitState.detached 60000
      ∈ (on_connect env s).tr ∧
    (on_connect env s).res = Except.ok () := by
  have hinit := init_browser_on_live env.init s p hpg
  have hlink : pyOrStr v ("❌ No link found") = "❌ No link found" := by
    rcases hv with hv | hv <;> simp [hv, pyOrStr]
  unfold on_connect
  rw [hinit]
  rcases hd : env.waitDetach with _ | e
  · simp [connect_try, h1, h2, h3, h4, h5, hd, hlink, Event.isSendMessage,
      List.filter_append]
  · rcases e with _ | m | m <;>
      simp [connect_try, h1, h2, h3, h4, h5, hd, hlink, Event.isSendMessage,
        List.filter_append]

/-- Witness for C6's amended theorem on `envConnectNoLink`. -/
theorem c6_witness :
    ((on_connect envConnectNoLink liveState).tr.filter Event.isSendMessage).head?
      = some (Event.sendMessage (connectLinkMsg ("❌ No link found"))) ∧
    Event.waitForSelector Sel.connectTonButton WaitState.detached 60000
      ∈ (on_connect envConnectNoLink liveState).tr ∧
    (on_connect envConnectNoLink liveState).res = Except.ok () :=
  c6_missing_link_marker_and_continue envConnectNoLink liveState 2 none
    rfl rfl rfl rfl rfl rfl (Or.inl rfl)

/-! ### Claim C7 -/

/-- Claim C7, confirmed: on a live session with a valid fragment, when any
of the page-interaction steps (navigate, locate row, trigger issuance, wait
for / read the code) raises `e`, the handler still returns normally,
answers this single query with the textual error `"⚠️ " + str(e)` inside
its one article, leaves the browser globals exactly as they were, and
performs no session-teardown call. -/
theorem c7_exception_scoped_to_query (env : InlineEnv) (query : String)
    (s : BrowserState) (p : Nat) (e : PyExn)
    (hpg : s.page = some p)
    (hq : validFragment (pyStrip query) = true)
    (hf : InlineFailsWith env e) :
    (on_inline_query env query s).res = Except.ok () ∧
    (on_inline_query env query s).st = s ∧
    (on_inline_query env query s).tr.filter Event.isAnswer
      = [Event.answerInline [mkArticle (pyStrip query) ("⚠️ " ++ e.toMessage)] 5] ∧
    (on_inline_query env query s).tr.all (fun ev => !ev.isTeardown) = true := by
  have hinit := init_browser_on_live env.init s p hpg
  have hcode := inline_try_fails env (pyStrip query) e hf
  have hev := inline_try_events env (pyStrip query)
  unfold on_inline_query
  rw [hinit]
  simp only [hq, if_true]
  refine ⟨trivial, trivial, ?_, ?_⟩
  · simp [List.filter_append, hev.1, hcode, Event.isAnswer]
  · simp only [List.nil_append, List.all_append, List.all_cons, List.all_nil]
    rw [hev.2]
    simp [Event.isTeardown]

/-- An inline environment whose navigation to the listing page raises. -/
def envInlineGotoFails : InlineEnv :=
  ⟨envInitOk, some (PyExn.err ("net::ERR_CONNECTION_RESET")), none, none, none, .ok none⟩

/-- Witness for C7: navigation failure on the query "123". -/
theorem c7_witness :
    (on_inline_query envInlineGotoFails "123" liveState).res = Except.ok () ∧
    (on_inline_query envInlineGotoFails "123" liveState).st = liveState ∧
    (on_inline_query envInlineGotoFails "123" liveState).tr.filter Event.isAnswer
      = [Event.answerInline
          [mkArticle (pyStrip "123")
            ("⚠️ " ++ (PyExn.err ("net::ERR_CONNECTION_RESET")).toMessage)] 5] ∧
    (on_inline_query envInlineGotoFails "123" liveState).tr.all
      (fun ev => !ev.isTeardown) = true :=
  c7_exception_scoped_to_query envInlineGotoFails "123" liveState 2
    (PyExn.err ("net::ERR_CONNECTION_RESET")) rfl (by decide) (Or.inl rfl)

/-! ### Claim C8 -/

/-- A connect run from the uninitialized state in which
`launch_persistent_context` raises. -/
def envConnectLaunchFail : ConnectEnv :=
  ⟨⟨none, some (PyExn.err ("browser launch failed")), none, none⟩,
    none, none, none, none, .ok none, none⟩

/-- Claim C8 as frozen is false: `init_browser()` is awaited before the
`try` block, so a session-acquisition failure propagates out of the
Connect Workflow uncaught, with no user-facing text sent at all. -/
theorem c8_counterexample :
    (on_connect envConnectLaunchFail freshState).res
      = Except.error (PyExn.err ("browser launch failed")) ∧
    (on_connect envConnectLaunchFail freshState).tr.filter Event.isSendMessage = [] ∧
    (on_connect envConnectLaunchFail freshState).tr.filter Event.isAnswer = [] :=
  ⟨rfl, rfl, rfl⟩

/-- Claim C8, amended: once the session is initialized, no exception of any
workflow step ever escapes either handler — every outcome of every page
operation leads to a normal return; only a failure of `init_browser`
itself, which runs before each workflow's `try` block, can propagate out
uncaught. -/
theorem c8_no_escape_once_acquired (ce : ConnectEnv) (ie : InlineEnv)
    (query : String) (s : BrowserState) (p : Nat)
    (hpg : s.page = some p) :
    (on_connect ce s).res = Except.ok () ∧
    (on_inline_query ie query s).res = Except.ok () := by
  constructor
  · unfold on_connect
    rw [init_browser_on_live ce.init s p hpg]
    rcases h : connect_try ce with ⟨r, tr⟩
    rcases r with e | u <;> simp
  · unfold on_inline_query
    by_cases hv : validFragment (pyStrip query)
    · rw [init_browser_on_live ie.init s p hpg]
      simp [hv]
    · simp [hv]

/-- Witness for C8's amended theorem: a connect run whose handshake wait
raises and an inline run whose navigation raises both return normally on a
live session. -/
theorem c8_witness :
    (on_connect envConnectPwTimeout liveState).res = Except.ok () ∧
    (on_inline_query envInlineGotoFails "456" liveState).res = Except.ok () :=
  c8_no_escape_once_acquired envConnectPwTimeout envInlineGotoFails "456" liveState 2 rfl

/-! ### Claim C9 -/

/-- An inline environment whose session acquisition fails at
`launch_persistent_context`. -/
def envInlineLaunchFail : InlineEnv :=
  ⟨⟨none, some (PyExn.err ("browser launch failed")), none, none⟩,
    none, none, none, none, .ok none⟩

/-- Claim C9 as frozen is false: for the valid query "123", when
`init_browser()` (awaited before the `try` block) raises, the handler
propagates the exception without calling `inline_q.answer` at all — so a
valid query is not always answered with one result article, and the error
text is not embedded in any result. -/
theorem c9_counterexample :
    validFragment (pyStrip "123") = true ∧
    (on_inline_query envInlineLaunchFail "123" freshState).res
      = Except.error (PyExn.err ("browser launch failed")) ∧
    (on_inline_query envInlineLaunchFail "123" freshState).tr.filter Event.isAnswer
      = [] :=
  ⟨by decide, rfl, rfl⟩

/-- Claim C9, amended: for every inline query with a valid fragment, once
the session is available the handler answers with exactly one result
article whose id equals the stripped fragment (the error text of a failing
lookup step being embedded in that article's code field), and never with an
empty result list; only when `init_browser` itself raises is no answer sent
at all. -/
theorem c9_single_article_once_acquired (env : InlineEnv) (query : String)
    (s : BrowserState) (p : Nat)
    (hpg : s.page = some p)
    (hq : validFragment (pyStrip query) = true) :
    ∃ code : String,
      (on_inline_query env query s).tr.filter Event.isAnswer
        = [Event.answerInline [mkArticle (pyStrip query) code] 5] ∧
      (mkArticle (pyStrip query) code).id = pyStrip query := by
  have hinit := init_browser_on_live env.init s p hpg
  have hev := inline_try_events env (pyStrip query)
  unfold on_inline_query
  rw [hinit]
  simp only [hq, if_true]
  refine ⟨(inline_try env (pyStrip query)).1, ?_, rfl⟩
  simp [List.filter_append, hev.1, Event.isAnswer]

/-- Witness for C9's amended theorem at the query " 123 " on a live
session with all lookup steps succeeding. -/
theorem c9_witness :
    ∃ code : String,
      (on_inline_query envInlineAllOk " 123 " liveState).tr.filter Event.isAnswer
        = [Event.answerInline [mkArticle (pyStrip " 123 ") code] 5] ∧
      (mkArticle (pyStrip " 123 ") code).id = pyStrip " 123 " :=
  c9_single_article_once_acquired envInlineAllOk " 123 " liveState 2 rfl (by decide)

/-! ### Claim C10 -/

/-- Claim C10, confirmed: on the uninitialized state (all three globals
`None`) `shutdown_browser` succeeds without touching the context or the
engine (empty trace) and leaves every handle `None`; running it a second
time gives the identical result, so two runs have the same effect on the
session state as one. -/
theorem c10_shutdown_uninit_noop_idempotent (e1 e2 : ShutdownEnv) (n : Nat) :
    shutdown_browser e1 ⟨none, none, none, n⟩
      = ⟨Except.ok (), ⟨none, none, none, n⟩, []⟩ ∧
    shutdown_browser e2 (shutdown_browser e1 ⟨none, none, none, n⟩).st
      = shutdown_browser e1 ⟨none, none, none, n⟩ :=
  ⟨rfl, rfl⟩
